import Mathlib

/-!
Verification of the cost computation engine of QuickBuildEstimate
(`cost_engine.py`: `calculate_estimate_totals` and `get_cost_breakdown`,
data model from `models.py`).

Modelling conventions:
* Python floats are modelled as exact rationals (`ℚ`).
* Dynamically typed JSON field values (from `areas_json`) are modelled by
  the sum type `Value` (string / number / null); a dictionary key that may
  be absent is an `Option Value`.
* Nullable SQL columns (`total_cost`, `bundle`, ...) are `Option ℚ` /
  `Option String`.
* A Python exception is an `Except String` error; `calculate_estimate_totals`
  re-raises with the message prefix it uses in the source.
* Python dictionaries are association lists; assignment `d[k] = v`
  overwrites the entry in place (`alistSet`), matching insertion-order
  semantics where relevant.
* `round(x, 2)` is banker's rounding (round half to even) on the exact
  rational, scaled by 100.
-/

deriving instance DecidableEq for Except

namespace QuickBuild

/-- A dynamically-typed JSON value as it appears in an area record:
a string, a number, or null. -/
inductive Value where
  | str : String → Value
  | num : ℚ → Value
  | null : Value
deriving DecidableEq, Repr

/-- One area record from `estimate.get_areas()`: a JSON object with
(possibly absent) keys `room`, `category`, `area_ft2`.
`none` means the key is absent; `some .null` means it is present and null. -/
structure AreaRecord where
  room : Option Value
  category : Option Value
  area_ft2 : Option Value
deriving DecidableEq, Repr

/-- The `Estimate` model fields read and written by the cost engine
(`models.py`). `areas` is the parsed `areas_json`; `active_bundles` the
parsed `active_bundles_json`. -/
structure Estimate where
  name : String
  areas : List AreaRecord
  active_bundles : List String
  profit_percentage : Option ℚ
  contingency_percentage : Option ℚ
  subtotal : ℚ
  profit_amount : ℚ
  contingency_amount : ℚ
  grand_total : ℚ
deriving DecidableEq, Repr

/-- The `MaterialItem` model (`models.py`): nullable columns are `Option`. -/
structure MaterialItem where
  name : String
  unit : Option String
  unit_cost : Option ℚ
  quantity : Option ℚ
  total_cost : Option ℚ
  bundle : Option String
  category : Option String
deriving DecidableEq, Repr

/-- The `LaborItem` model (`models.py`). -/
structure LaborItem where
  task : String
  hours : Option ℚ
  hourly_rate : Option ℚ
  total_cost : Option ℚ
  category : Option String
deriving DecidableEq, Repr

/-- Python `x or d` for a nullable float: `None` and `0.0` are falsy. -/
def orFloat (v : Option ℚ) (d : ℚ) : ℚ :=
  match v with
  | none => d
  | some q => if q = 0 then d else q

/-- Python `x or d` for a nullable string: `None` and `""` are falsy. -/
def orStr (v : Option String) (d : String) : String :=
  match v with
  | none => d
  | some s => if s.isEmpty then d else s

/-- Python `x or 0.0` for a nullable cost (coalesces to the same value,
since `0.0 or 0.0 = 0.0`). -/
def coalesce (v : Option ℚ) : ℚ :=
  match v with
  | none => 0
  | some q => q

/-- Python `d.get(key, default)`: the default only applies when the key
is absent. -/
def getOr (v : Option Value) (d : Value) : Value :=
  match v with
  | none => d
  | some x => x

/-- Python `str.lower()`, mapping each character to lower case (the
category names compared against are ASCII). -/
def lowerString (s : String) : String :=
  ⟨s.data.map Char.toLower⟩

/-- Python `v.lower()`: succeeds only on a string, raising
`AttributeError` otherwise. -/
def lowerVal (v : Value) : Except String String :=
  match v with
  | .str s => .ok (lowerString s)
  | _ => .error "AttributeError"

/-- Python `acc + v` for a float accumulator: raises `TypeError` unless
`v` is a number. -/
def addVal (acc : ℚ) (v : Value) : Except String ℚ :=
  match v with
  | .num q => .ok (acc + q)
  | _ => .error "TypeError"

/-- Python `v * r` for a float `r`: raises `TypeError` unless `v` is a
number. -/
def mulVal (v : Value) (r : ℚ) : Except String ℚ :=
  match v with
  | .num q => .ok (q * r)
  | _ => .error "TypeError"

/-- The base PSF rate table of `calculate_estimate_totals`
(`cost_engine.py` lines 38-43), keyed by the lower-cased category. -/
def psfRate (catLower : String) : ℚ :=
  if catLower = "exterior" then 15
  else if catLower = "utility" then 25
  else 20

/-- The material-inclusion test of `cost_engine.py` line 16:
`if not material.bundle or material.bundle in active_bundles`. -/
def materialIncluded (bundle : Option String) (active : List String) : Bool :=
  match bundle with
  | none => true
  | some s => s.isEmpty || active.contains s

/-- The material loop of `calculate_estimate_totals`
(`cost_engine.py` lines 12-17). -/
def materialStep (active : List String) (acc : ℚ) (m : MaterialItem) : ℚ :=
  if materialIncluded m.bundle active then acc + coalesce m.total_cost else acc

def materialTotal (materials : List MaterialItem) (active : List String) : ℚ :=
  materials.foldl (materialStep active) 0

/-- The labor loop of `calculate_estimate_totals`
(`cost_engine.py` lines 20-25): every labor item is included. -/
def laborStep (acc : ℚ) (l : LaborItem) : ℚ :=
  acc + coalesce l.total_cost

def laborTotal (laborItems : List LaborItem) : ℚ :=
  laborItems.foldl laborStep 0

/-- `total_area = sum(area.get('area_ft2', 0) for area in areas)`
(`cost_engine.py` line 29): the Python `sum` starts at the int 0 and
raises `TypeError` on a non-numeric value. -/
def sumAreaFt2 (areas : List AreaRecord) : Except String ℚ :=
  areas.foldlM (fun acc a => addVal acc (getOr a.area_ft2 (.num 0))) 0

/-- One iteration of the area-cost loop of `calculate_estimate_totals`
(`cost_engine.py` lines 33-45). -/
def areaCostStep (acc : ℚ) (a : AreaRecord) : Except String ℚ := do
  let ft2 := getOr a.area_ft2 (.num 0)
  let catLower ← lowerVal (getOr a.category (.str "Interior"))
  let cost ← mulVal ft2 (psfRate catLower)
  pure (acc + cost)

def areaCostTotal (areas : List AreaRecord) : Except String ℚ :=
  areas.foldlM areaCostStep 0

/-- The raw (unrounded) quantities computed by the body of
`calculate_estimate_totals` before the estimate is updated. -/
structure RawTotals where
  material_total : ℚ
  labor_total : ℚ
  area_cost : ℚ
  subtotal : ℚ
  profit_amount : ℚ
  contingency_amount : ℚ
  grand_total : ℚ
deriving DecidableEq, Repr

/-- The fallible body of `calculate_estimate_totals`
(`cost_engine.py` lines 8-59), up to but not including the rounding and
assignment of the four computed fields. -/
def computeRaw (e : Estimate) (materials : List MaterialItem)
    (laborItems : List LaborItem) : Except String RawTotals := do
  let active := e.active_bundles
  let material_total := materialTotal materials active
  let labor_total := laborTotal laborItems
  let _total_area ← sumAreaFt2 e.areas
  let area_cost ← areaCostTotal e.areas
  let subtotal := material_total + labor_total + area_cost
  let profit_percentage := orFloat e.profit_percentage 15
  let profit_amount := subtotal * (profit_percentage / 100)
  let contingency_percentage := orFloat e.contingency_percentage 10
  let contingency_amount := (subtotal + profit_amount) * (contingency_percentage / 100)
  let grand_total := subtotal + profit_amount + contingency_amount
  pure ⟨material_total, labor_total, area_cost, subtotal,
        profit_amount, contingency_amount, grand_total⟩

/-- Python `round(x, 2)` scaled: round half to even on the exact rational. -/
def roundHalfEven (q : ℚ) : ℤ :=
  let fl := ⌊q⌋
  if q - fl < 1/2 then fl
  else if 1/2 < q - fl then fl + 1
  else if fl % 2 = 0 then fl else fl + 1

/-- Python `round(x, 2)`. -/
def round2 (q : ℚ) : ℚ :=
  ((roundHalfEven (q * 100) : ℤ) : ℚ) / 100

/-- `calculate_estimate_totals` (`cost_engine.py` lines 5-71): on success
the four computed fields of the estimate are overwritten together with the
rounded values; any exception is re-raised as
`"Failed to calculate estimate totals: " ++ cause` and the estimate is
untouched. -/
def calculate_estimate_totals (e : Estimate) (materials : List MaterialItem)
    (laborItems : List LaborItem) : Except String Estimate :=
  match computeRaw e materials laborItems with
  | .ok r =>
      .ok { e with
        subtotal := round2 r.subtotal
        profit_amount := round2 r.profit_amount
        contingency_amount := round2 r.contingency_amount
        grand_total := round2 r.grand_total }
  | .error cause => .error ("Failed to calculate estimate totals: " ++ cause)

/-! ### Breakdown reporter (`get_cost_breakdown`) -/

/-- `alistGet d k`: lookup in a Python-dict-as-association-list. -/
def alistGet {α β : Type} [DecidableEq α] (d : List (α × β)) (k : α) : Option β :=
  match d with
  | [] => none
  | (k', v) :: rest => if k' = k then some v else alistGet rest k

/-- Python `d[k] = v`: overwrite in place if the key exists, else append. -/
def alistSet {α β : Type} [DecidableEq α] (d : List (α × β)) (k : α) (v : β) :
    List (α × β) :=
  match d with
  | [] => [(k, v)]
  | (k', v') :: rest =>
      if k' = k then (k, v) :: rest else (k', v') :: alistSet rest k v

/-- Python `if k not in d: d[k] = []` followed by `d[k].append(v)`. -/
def groupAppend {α β : Type} [DecidableEq α] (d : List (α × List β)) (k : α)
    (v : β) : List (α × List β) :=
  match alistGet d k with
  | some lst => alistSet d k (lst ++ [v])
  | none => d ++ [(k, [v])]

/-- One material entry of the breakdown (`cost_engine.py` lines 101-107). -/
structure MatEntry where
  name : String
  quantity : Option ℚ
  unit : Option String
  unit_cost : Option ℚ
  total_cost : Option ℚ
deriving DecidableEq, Repr

/-- One labor entry of the breakdown (`cost_engine.py` lines 117-122). -/
structure LabEntry where
  task : String
  hours : Option ℚ
  hourly_rate : Option ℚ
  total_cost : Option ℚ
deriving DecidableEq, Repr

/-- One area-cost entry of the breakdown (`cost_engine.py` lines 141-146). -/
structure AreaEntry where
  area_ft2 : Value
  psf_rate : ℚ
  total_cost : ℚ
  category : Value
deriving DecidableEq, Repr

/-- The `totals` sub-dictionary of the breakdown. -/
structure Totals where
  materials : ℚ
  labor : ℚ
  area_costs : ℚ
  subtotal : ℚ
  profit : ℚ
  contingency : ℚ
  grand_total : ℚ
deriving DecidableEq, Repr

/-- The breakdown report of `get_cost_breakdown`. -/
structure Breakdown where
  materials : List (String × List MatEntry)
  labor : List (String × List LabEntry)
  area_costs : List (Value × AreaEntry)
  totals : Totals
deriving DecidableEq, Repr

/-- The material loop of `get_cost_breakdown` (`cost_engine.py`
lines 94-108): groups included materials by bundle (empty bundle under
`'Miscellaneous'`) while accumulating `totals['materials']`. -/
def breakdownMatStep (active : List String)
    (acc : List (String × List MatEntry) × ℚ) (m : MaterialItem) :
    List (String × List MatEntry) × ℚ :=
  if materialIncluded m.bundle active then
    (groupAppend acc.1 (orStr m.bundle "Miscellaneous")
        ⟨m.name, m.quantity, m.unit, m.unit_cost, m.total_cost⟩,
      acc.2 + coalesce m.total_cost)
  else acc

def breakdownMaterials (materials : List MaterialItem) (active : List String) :
    List (String × List MatEntry) × ℚ :=
  materials.foldl (breakdownMatStep active) ([], 0)

/-- The labor loop of `get_cost_breakdown` (`cost_engine.py`
lines 111-123): groups all labor by category (empty category under
`'General Labor'`) while accumulating `totals['labor']`. -/
def breakdownLabStep (acc : List (String × List LabEntry) × ℚ)
    (l : LaborItem) : List (String × List LabEntry) × ℚ :=
  (groupAppend acc.1 (orStr l.category "General Labor")
      ⟨l.task, l.hours, l.hourly_rate, l.total_cost⟩,
    acc.2 + coalesce l.total_cost)

def breakdownLabor (laborItems : List LaborItem) :
    List (String × List LabEntry) × ℚ :=
  laborItems.foldl breakdownLabStep ([], 0)

/-- One iteration of the area loop of `get_cost_breakdown`
(`cost_engine.py` lines 127-147): the entry for the record's room key is
overwritten, `totals['area_costs']` accumulates every record's cost. -/
def breakdownAreaStep (acc : List (Value × AreaEntry) × ℚ) (a : AreaRecord) :
    Except String (List (Value × AreaEntry) × ℚ) := do
  let ft2 := getOr a.area_ft2 (.num 0)
  let category := getOr a.category (.str "Interior")
  let room := getOr a.room (.str "Unknown")
  let catLower ← lowerVal category
  let rate := psfRate catLower
  let cost ← mulVal ft2 rate
  pure (alistSet acc.1 room ⟨ft2, rate, cost, category⟩, acc.2 + cost)

def breakdownAreas (areas : List AreaRecord) :
    Except String (List (Value × AreaEntry) × ℚ) :=
  areas.foldlM breakdownAreaStep ([], 0)

/-- `get_cost_breakdown` (`cost_engine.py` lines 73-149). The stored
subtotal/profit/contingency/grand-total are copied from the estimate as-is;
the materials/labor/area-costs totals are recomputed by the three loops. -/
def get_cost_breakdown (e : Estimate) (materials : List MaterialItem)
    (laborItems : List LaborItem) : Except String Breakdown := do
  let active := e.active_bundles
  let mats := breakdownMaterials materials active
  let labs := breakdownLabor laborItems
  let ars ← breakdownAreas e.areas
  pure ⟨mats.1, labs.1, ars.1,
    ⟨mats.2, labs.2, ars.2,
      e.subtotal, e.profit_amount, e.contingency_amount, e.grand_total⟩⟩


/-! ### Helper lemmas -/

theorem foldlM_except_append {σ α : Type} (f : σ → α → Except String σ)
    (l : List α) (x : α) (init : σ) :
    (l ++ [x]).foldlM f init = (l.foldlM f init) >>= fun s => f s x := by
  induction l generalizing init <;> simp_all

theorem materialIncluded_iff (bundle : Option String) (active : List String) :
    materialIncluded bundle active = true ↔
      bundle = none ∨ bundle = some "" ∨ ∃ s ∈ active, bundle = some s := by
  cases bundle with
  | none => simp [materialIncluded]
  | some s =>
    have hc : (active.contains s = true) ↔ s ∈ active := by simp
    simp only [materialIncluded, Bool.or_eq_true, hc,
      String.isEmpty_iff, Option.some.injEq, reduceCtorEq, false_or]
    constructor
    · rintro (h | h)
      · exact Or.inl h
      · exact Or.inr ⟨s, h, rfl⟩
    · rintro (h | ⟨t, ht, rfl⟩)
      · exact Or.inl h
      · exact Or.inr ht

theorem computeRaw_ok_spec (e : Estimate) (ms : List MaterialItem)
    (ls : List LaborItem) (r : RawTotals) (h : computeRaw e ms ls = .ok r) :
    r.material_total = materialTotal ms e.active_bundles ∧
    r.labor_total = laborTotal ls ∧
    areaCostTotal e.areas = .ok r.area_cost ∧
    r.subtotal = r.material_total + r.labor_total + r.area_cost ∧
    r.profit_amount = r.subtotal * (orFloat e.profit_percentage 15 / 100) ∧
    r.contingency_amount =
      (r.subtotal + r.profit_amount) * (orFloat e.contingency_percentage 10 / 100) ∧
    r.grand_total = r.subtotal + r.profit_amount + r.contingency_amount := by
  unfold computeRaw at h
  cases hs : sumAreaFt2 e.areas with
  | error err => rw [hs] at h; simp [Bind.bind, Except.bind] at h
  | ok ta =>
    cases ha : areaCostTotal e.areas with
    | error err => rw [hs, ha] at h; simp [Bind.bind, Except.bind] at h
    | ok ac =>
      rw [hs, ha] at h
      simp only [Bind.bind, Except.bind, pure, Except.pure, Except.ok.injEq] at h
      subst h
      exact ⟨rfl, rfl, rfl, rfl, rfl, rfl, rfl⟩

theorem calculate_ok_spec (e : Estimate) (ms : List MaterialItem)
    (ls : List LaborItem) (e' : Estimate)
    (h : calculate_estimate_totals e ms ls = .ok e') :
    ∃ r, computeRaw e ms ls = .ok r ∧
      e' = { e with
        subtotal := round2 r.subtotal
        profit_amount := round2 r.profit_amount
        contingency_amount := round2 r.contingency_amount
        grand_total := round2 r.grand_total } := by
  unfold calculate_estimate_totals at h
  cases hr : computeRaw e ms ls with
  | error err => simp only [hr, reduceCtorEq] at h
  | ok r =>
    simp only [hr, Except.ok.injEq] at h
    exact ⟨r, rfl, h.symm⟩

/-! ### Claims -/

/-- C1: `recompute_totals` includes a material line item's `total_cost`
(null-coalesced to 0.0) in the material total if and only if the item's
bundle is empty/absent or the bundle name is a member of the estimate's
active-bundle set; an empty bundle is included even when the active set is
empty, and a non-empty bundle not in the active set is excluded. -/
theorem C1_material_bundle_filter (ms : List MaterialItem)
    (active : List String) (m : MaterialItem) :
    materialTotal (ms ++ [m]) active =
      materialTotal ms active +
        (if m.bundle = none ∨ m.bundle = some "" ∨ ∃ s ∈ active, m.bundle = some s
         then coalesce m.total_cost else 0) := by
  unfold materialTotal
  rw [List.foldl_append]
  simp only [List.foldl_cons, List.foldl_nil]
  by_cases hc : m.bundle = none ∨ m.bundle = some "" ∨ ∃ s ∈ active, m.bundle = some s
  · rw [if_pos hc]
    simp only [materialStep]
    rw [if_pos ((materialIncluded_iff _ _).mpr hc)]
  · rw [if_neg hc]
    simp only [materialStep]
    rw [if_neg, add_zero]
    intro hI
    exact hc ((materialIncluded_iff _ _).mp hI)

/-- C3: for every area record, `recompute_totals` determines the
per-square-foot rate from the record's category by case-insensitive match
(`exterior` gives 15.0, `utility` gives 25.0, anything else, including an
absent category which defaults to `Interior`, gives 20.0), multiplies by
the record's area and sums across all records, an empty list contributing
0; concretely, area 100 costs 1500.00 for `Exterior` in any casing,
2500.00 for `Utility`, and 2000.00 for `Interior`, an unrecognized
category, or an absent one. -/
theorem C3_area_rate_table :
    areaCostTotal [] = .ok 0 ∧
    (∀ (l : List AreaRecord) (ac : ℚ) (a : AreaRecord) (s : String) (q : ℚ),
      areaCostTotal l = .ok ac →
      a.category = some (.str s) → a.area_ft2 = some (.num q) →
      areaCostTotal (l ++ [a]) =
        .ok (ac + q * (if lowerString s = "exterior" then 15
                       else if lowerString s = "utility" then 25 else 20))) ∧
    (∀ (l : List AreaRecord) (ac : ℚ) (a : AreaRecord) (q : ℚ),
      areaCostTotal l = .ok ac →
      a.category = none → a.area_ft2 = some (.num q) →
      areaCostTotal (l ++ [a]) = .ok (ac + q * 20)) ∧
    (∀ s : String, lowerString s = "exterior" →
      areaCostTotal [⟨none, some (.str s), some (.num 100)⟩] = .ok 1500) ∧
    (∀ s : String, lowerString s = "utility" →
      areaCostTotal [⟨none, some (.str s), some (.num 100)⟩] = .ok 2500) ∧
    (∀ s : String, lowerString s ≠ "exterior" → lowerString s ≠ "utility" →
      areaCostTotal [⟨none, some (.str s), some (.num 100)⟩] = .ok 2000) ∧
    areaCostTotal [⟨none, none, some (.num 100)⟩] = .ok 2000 := by
  have hstep : ∀ (l : List AreaRecord) (ac : ℚ) (a : AreaRecord),
      areaCostTotal l = .ok ac →
      areaCostTotal (l ++ [a]) = areaCostStep ac a := by
    intro l ac a hl
    unfold areaCostTotal at *
    rw [foldlM_except_append, hl]
    rfl
  refine ⟨rfl, ?_, ?_, ?_, ?_, ?_, ?_⟩
  · intro l ac a s q hl hcat hft
    rw [hstep l ac a hl]
    simp [areaCostStep, hcat, hft, getOr, lowerVal, mulVal, psfRate,
      Bind.bind, Except.bind, pure, Except.pure, mul_comm]
  · intro l ac a q hl hcat hft
    rw [hstep l ac a hl]
    simp [areaCostStep, hcat, hft, getOr, lowerVal, mulVal, psfRate,
      Bind.bind, Except.bind, pure, Except.pure, mul_comm,
      show lowerString "Interior" = "interior" from by decide]
  · intro s hs
    simp [areaCostTotal, List.foldlM, areaCostStep, getOr, lowerVal, mulVal,
      psfRate, hs, Bind.bind, Except.bind, pure, Except.pure]
    norm_num
  · intro s hs
    simp [areaCostTotal, List.foldlM, areaCostStep, getOr, lowerVal, mulVal,
      psfRate, hs, Bind.bind, Except.bind, pure, Except.pure]
    norm_num
  · intro s hs1 hs2
    simp [areaCostTotal, List.foldlM, areaCostStep, getOr, lowerVal, mulVal,
      psfRate, hs1, hs2, Bind.bind, Except.bind, pure, Except.pure]
    norm_num
  · simp [areaCostTotal, List.foldlM, areaCostStep, getOr, lowerVal, mulVal,
      psfRate, Bind.bind, Except.bind, pure, Except.pure,
      show lowerString "Interior" = "interior" from by decide]
    norm_num

/-- C3 witness: the rate table evaluated at concrete inputs through
`C3_area_rate_table`: category `ExTeRiOr` (mixed casing) with area 100
costs 1500, `Utility` costs 2500, `Interior` costs 2000. -/
theorem C3_area_rate_table_witness :
    lowerString "ExTeRiOr" = "exterior" ∧
    areaCostTotal [⟨none, some (.str "ExTeRiOr"), some (.num 100)⟩] = .ok 1500 ∧
    areaCostTotal [⟨none, some (.str "Utility"), some (.num 100)⟩] = .ok 2500 ∧
    areaCostTotal [⟨none, some (.str "Interior"), some (.num 100)⟩] = .ok 2000 :=
  ⟨by decide,
    C3_area_rate_table.2.2.2.1 "ExTeRiOr" (by decide),
    C3_area_rate_table.2.2.2.2.1 "Utility" (by decide),
    C3_area_rate_table.2.2.2.2.2.1 "Interior" (by decide) (by decide)⟩

/-- C2: `recompute_totals` computes subtotal as material total plus labor
total plus area cost (labor summed over all labor items, unfiltered by
bundles), profit amount as subtotal times the profit percentage over 100,
contingency amount on the post-profit amount, and the grand total as the
sum of subtotal, profit and contingency. -/
theorem C2_layered_formula (e : Estimate) (ms : List MaterialItem)
    (ls : List LaborItem) (r : RawTotals) (h : computeRaw e ms ls = .ok r) :
    r.subtotal = materialTotal ms e.active_bundles + laborTotal ls + r.area_cost ∧
    areaCostTotal e.areas = .ok r.area_cost ∧
    r.labor_total = laborTotal ls ∧
    r.profit_amount = r.subtotal * (orFloat e.profit_percentage 15 / 100) ∧
    r.contingency_amount =
      (r.subtotal + r.profit_amount) * (orFloat e.contingency_percentage 10 / 100) ∧
    r.grand_total = r.subtotal + r.profit_amount + r.contingency_amount := by
  obtain ⟨h1, h2, h3, h4, h5, h6, h7⟩ := computeRaw_ok_spec e ms ls r h
  exact ⟨by rw [h4, h1, h2], h3, h2, h5, h6, h7⟩

/-- C2 witness: a single material of cost 1000 with profit 15% and
contingency 10% yields profit 150, contingency 115 and grand total 1265,
and 1265 = 1000 + 150 + 115 by `C2_layered_formula`. -/
theorem C2_layered_formula_witness :
    computeRaw ⟨"w", [], [], some 15, some 10, 0, 0, 0, 0⟩
        [⟨"m", none, none, none, some 1000, none, none⟩] [] =
      .ok ⟨1000, 0, 0, 1000, 150, 115, 1265⟩ ∧
    (1265 : ℚ) = 1000 + 150 + 115 := by
  have h : computeRaw ⟨"w", [], [], some 15, some 10, 0, 0, 0, 0⟩
      [⟨"m", none, none, none, some 1000, none, none⟩] [] =
      .ok ⟨1000, 0, 0, 1000, 150, 115, 1265⟩ := by
    norm_num [computeRaw, materialTotal, materialStep, materialIncluded,
      coalesce, orFloat, laborTotal, laborStep, sumAreaFt2, areaCostTotal,
      List.foldlM, List.foldl, pure, Except.pure, Except.bind, bind]
  exact ⟨h, (C2_layered_formula _ _ _ _ h).2.2.2.2.2⟩

/-- C4 counterexample: with the profit and contingency percentages both
explicitly set to the numeric value 0, `recompute_totals` does not use
them as given: on a single material of cost 1000 it falls back to the
defaults 15 and 10, producing profit 150 and contingency 115 instead of
the 0 and 0 the claim requires. -/
theorem C4_counterexample :
    computeRaw ⟨"z", [], [], some 0, some 0, 0, 0, 0, 0⟩
        [⟨"m", none, none, none, some 1000, none, none⟩] [] =
      .ok ⟨1000, 0, 0, 1000, 150, 115, 1265⟩ ∧
    (150 : ℚ) ≠ 0 ∧ (115 : ℚ) ≠ 0 := by
  refine ⟨?_, by norm_num, by norm_num⟩
  norm_num [computeRaw, materialTotal, materialStep, materialIncluded,
    coalesce, orFloat, laborTotal, laborStep, sumAreaFt2, areaCostTotal,
    List.foldlM, List.foldl, pure, Except.pure, Except.bind, bind]

/-- C4 amended: `recompute_totals` falls back to the default profit
percentage (15.0) and contingency percentage (10.0) when the corresponding
percentage is null/unset or equals 0 (Python falsiness); a percentage set
to any nonzero numeric value, including out-of-range values, is used as
given. -/
theorem C4_percentage_defaults (e : Estimate) (ms : List MaterialItem)
    (ls : List LaborItem) (r : RawTotals) (h : computeRaw e ms ls = .ok r) :
    ((e.profit_percentage = none ∨ e.profit_percentage = some 0) →
      r.profit_amount = r.subtotal * (15 / 100)) ∧
    (∀ p, e.profit_percentage = some p → p ≠ 0 →
      r.profit_amount = r.subtotal * (p / 100)) ∧
    ((e.contingency_percentage = none ∨ e.contingency_percentage = some 0) →
      r.contingency_amount = (r.subtotal + r.profit_amount) * (10 / 100)) ∧
    (∀ c, e.contingency_percentage = some c → c ≠ 0 →
      r.contingency_amount = (r.subtotal + r.profit_amount) * (c / 100)) := by
  obtain ⟨-, -, -, -, h5, h6, -⟩ := computeRaw_ok_spec e ms ls r h
  refine ⟨?_, ?_, ?_, ?_⟩
  · rintro (hp | hp) <;> rw [h5, hp] <;> simp [orFloat]
  · intro p hp hne
    rw [h5, hp]
    simp [orFloat, hne]
  · rintro (hc | hc) <;> rw [h6, hc] <;> simp [orFloat]
  · intro c hc hne
    rw [h6, hc]
    simp [orFloat, hne]

/-- C4 amended witness: an out-of-range profit percentage of 150 and a
negative contingency percentage of -5, both nonzero, are used as given by
`C4_percentage_defaults`: profit is 100·(150/100) = 150 and contingency is
(100+150)·(-5/100) = -12.5. -/
theorem C4_percentage_defaults_witness :
    computeRaw ⟨"o", [], [], some 150, some (-5), 0, 0, 0, 0⟩
        [⟨"m", none, none, none, some 100, none, none⟩] [] =
      .ok ⟨100, 0, 0, 100, 150, -25/2, 475/2⟩ ∧
    (150 : ℚ) = 100 * (150 / 100) ∧
    (-25/2 : ℚ) = (100 + 150) * (-5 / 100) := by
  have h : computeRaw ⟨"o", [], [], some 150, some (-5), 0, 0, 0, 0⟩
      [⟨"m", none, none, none, some 100, none, none⟩] [] =
      .ok ⟨100, 0, 0, 100, 150, -25/2, 475/2⟩ := by
    norm_num [computeRaw, materialTotal, materialStep, materialIncluded,
      coalesce, orFloat, laborTotal, laborStep, sumAreaFt2, areaCostTotal,
      List.foldlM, List.foldl, pure, Except.pure, Except.bind, bind]
  exact ⟨h, (C4_percentage_defaults _ _ _ _ h).2.1 150 rfl (by norm_num),
    (C4_percentage_defaults _ _ _ _ h).2.2.2 (-5) rfl (by norm_num)⟩

theorem breakdownMaterials_snd (ms : List MaterialItem) (active : List String) :
    ∀ (d : List (String × List MatEntry)) (t : ℚ),
      (ms.foldl (breakdownMatStep active) (d, t)).2 =
        ms.foldl (materialStep active) t := by
  induction ms with
  | nil => intro d t; rfl
  | cons m rest ih =>
    intro d t
    simp only [List.foldl_cons]
    by_cases hI : materialIncluded m.bundle active = true
    · simp only [breakdownMatStep, materialStep, hI, if_true]
      exact ih _ _
    · simp only [breakdownMatStep, materialStep, hI, if_false]
      exact ih _ _

theorem breakdownLabor_snd (ls : List LaborItem) :
    ∀ (d : List (String × List LabEntry)) (t : ℚ),
      (ls.foldl breakdownLabStep (d, t)).2 = ls.foldl laborStep t := by
  induction ls with
  | nil => intro d t; rfl
  | cons l rest ih =>
    intro d t
    simp only [List.foldl_cons, breakdownLabStep, laborStep]
    exact ih _ _

theorem breakdownAreas_aux (areas : List AreaRecord) :
    ∀ (d : List (Value × AreaEntry)) (t : ℚ) (out : List (Value × AreaEntry) × ℚ),
      areas.foldlM breakdownAreaStep (d, t) = .ok out →
      areas.foldlM areaCostStep t = .ok out.2 := by
  induction areas with
  | nil =>
    intro d t out h
    simp only [List.foldlM_nil, pure, Except.pure, Except.ok.injEq] at h ⊢
    rw [← h]
  | cons a rest ih =>
    intro d t out h
    simp only [List.foldlM_cons] at h ⊢
    cases hlv : lowerVal (getOr a.category (.str "Interior")) with
    | error err =>
      have hb : breakdownAreaStep (d, t) a = .error err := by
        simp [breakdownAreaStep, hlv, Bind.bind, Except.bind]
      rw [hb] at h
      simp [Bind.bind, Except.bind] at h
    | ok cat =>
      cases hmv : mulVal (getOr a.area_ft2 (.num 0)) (psfRate cat) with
      | error err =>
        have hb : breakdownAreaStep (d, t) a = .error err := by
          simp [breakdownAreaStep, hlv, hmv, Bind.bind, Except.bind]
        rw [hb] at h
        simp [Bind.bind, Except.bind] at h
      | ok c =>
        have hb : breakdownAreaStep (d, t) a =
            .ok (alistSet d (getOr a.room (.str "Unknown"))
                  ⟨getOr a.area_ft2 (.num 0), psfRate cat, c,
                   getOr a.category (.str "Interior")⟩, t + c) := by
          simp [breakdownAreaStep, hlv, hmv, Bind.bind, Except.bind, pure, Except.pure]
        have ha : areaCostStep t a = .ok (t + c) := by
          simp [areaCostStep, hlv, hmv, Bind.bind, Except.bind, pure, Except.pure]
        rw [hb] at h
        rw [ha]
        simp only [Bind.bind, Except.bind] at h ⊢
        exact ih _ _ out h

theorem get_cost_breakdown_ok_spec (e : Estimate) (ms : List MaterialItem)
    (ls : List LaborItem) (bd : Breakdown)
    (h : get_cost_breakdown e ms ls = .ok bd) :
    bd.materials = (breakdownMaterials ms e.active_bundles).1 ∧
    bd.labor = (breakdownLabor ls).1 ∧
    breakdownAreas e.areas = .ok (bd.area_costs, bd.totals.area_costs) ∧
    bd.totals.materials = (breakdownMaterials ms e.active_bundles).2 ∧
    bd.totals.labor = (breakdownLabor ls).2 ∧
    bd.totals.subtotal = e.subtotal ∧
    bd.totals.profit = e.profit_amount ∧
    bd.totals.contingency = e.contingency_amount ∧
    bd.totals.grand_total = e.grand_total := by
  unfold get_cost_breakdown at h
  cases ha : breakdownAreas e.areas with
  | error err => rw [ha] at h; simp [Bind.bind, Except.bind] at h
  | ok ars =>
    rw [ha] at h
    simp only [Bind.bind, Except.bind, pure, Except.pure, Except.ok.injEq] at h
    subst h
    exact ⟨rfl, rfl, rfl, rfl, rfl, rfl, rfl, rfl, rfl⟩

/-- C5: for the same estimate, materials and labor items, the three totals
`build_breakdown` recomputes independently (`totals.materials`,
`totals.labor`, `totals.area_costs`) are numerically identical to the
material total, labor total and area cost computed inside
`recompute_totals`, using the same active-bundle inclusion rule for
materials. -/
theorem C5_breakdown_totals_match (e : Estimate) (ms : List MaterialItem)
    (ls : List LaborItem) (bd : Breakdown)
    (h : get_cost_breakdown e ms ls = .ok bd) :
    bd.totals.materials = materialTotal ms e.active_bundles ∧
    bd.totals.labor = laborTotal ls ∧
    areaCostTotal e.areas = .ok bd.totals.area_costs := by
  obtain ⟨-, -, h3, h4, h5, -⟩ := get_cost_breakdown_ok_spec e ms ls bd h
  refine ⟨?_, ?_, ?_⟩
  · rw [h4]
    exact breakdownMaterials_snd ms e.active_bundles [] 0
  · rw [h5]
    exact breakdownLabor_snd ls [] 0
  · exact breakdownAreas_aux e.areas [] 0 _ h3

/-- C5 witness: on an estimate with one Kitchen-bundled material (500),
one unbundled material (200), one material in an inactive bundle (999),
one labor item (300) and one Interior area of 10 sq ft, the breakdown
totals 700 / 300 / 200 agree with the aggregator's three component
totals by `C5_breakdown_totals_match`. -/
theorem C5_breakdown_totals_match_witness :
    get_cost_breakdown
        ⟨"w", [⟨some (.str "A"), some (.str "Interior"), some (.num 10)⟩],
         ["Kitchen"], some 15, some 10, 0, 0, 0, 0⟩
        [⟨"k", none, none, none, some 500, some "Kitchen", none⟩,
         ⟨"x", none, none, none, some 200, none, none⟩,
         ⟨"y", none, none, none, some 999, some "Bath", none⟩]
        [⟨"t", none, none, some 300, none⟩] =
      .ok ⟨[("Kitchen", [⟨"k", none, none, none, some 500⟩]),
            ("Miscellaneous", [⟨"x", none, none, none, some 200⟩])],
           [("General Labor", [⟨"t", none, none, some 300⟩])],
           [(Value.str "A", ⟨.num 10, 20, 200, .str "Interior"⟩)],
           ⟨700, 300, 200, 0, 0, 0, 0⟩⟩ ∧
    (700 : ℚ) = materialTotal
        [⟨"k", none, none, none, some 500, some "Kitchen", none⟩,
         ⟨"x", none, none, none, some 200, none, none⟩,
         ⟨"y", none, none, none, some 999, some "Bath", none⟩] ["Kitchen"] ∧
    (300 : ℚ) = laborTotal [⟨"t", none, none, some 300, none⟩] ∧
    areaCostTotal [⟨some (.str "A"), some (.str "Interior"), some (.num 10)⟩] =
      .ok 200 := by
  have h : get_cost_breakdown
      ⟨"w", [⟨some (.str "A"), some (.str "Interior"), some (.num 10)⟩],
       ["Kitchen"], some 15, some 10, 0, 0, 0, 0⟩
      [⟨"k", none, none, none, some 500, some "Kitchen", none⟩,
       ⟨"x", none, none, none, some 200, none, none⟩,
       ⟨"y", none, none, none, some 999, some "Bath", none⟩]
      [⟨"t", none, none, some 300, none⟩] =
      .ok ⟨[("Kitchen", [⟨"k", none, none, none, some 500⟩]),
            ("Miscellaneous", [⟨"x", none, none, none, some 200⟩])],
           [("General Labor", [⟨"t", none, none, some 300⟩])],
           [(Value.str "A", ⟨.num 10, 20, 200, .str "Interior"⟩)],
           ⟨700, 300, 200, 0, 0, 0, 0⟩⟩ := by
    simp only [get_cost_breakdown, breakdownMaterials, breakdownMatStep,
      breakdownLabor, breakdownLabStep, breakdownAreas, breakdownAreaStep,
      materialIncluded, coalesce, orStr, getOr, lowerVal, mulVal, psfRate,
      groupAppend, alistGet, alistSet, List.foldlM, List.foldl,
      Bind.bind, Except.bind, pure, Except.pure,
      String.reduceEq,
      show lowerString "Interior" = "interior" from by decide,
      show ("Kitchen" : String).isEmpty = false from by decide,
      show ("Bath" : String).isEmpty = false from by decide,
      show (["Kitchen"].contains "Kitchen") = true from by decide,
      show (["Kitchen"].contains "Bath") = false from by decide,
      Bool.false_eq_true, Bool.true_eq_false, if_true, if_false,
      ite_true, ite_false, reduceCtorEq, Except.ok.injEq]
    norm_num
  have hc := C5_breakdown_totals_match _ _ _ _ h
  exact ⟨h, hc.1, hc.2.1, hc.2.2⟩

/-- C6 counterexample: `build_breakdown` does raise for a data-quality
reason: an area record whose category is present but numeric (42) makes
`category.lower()` fail, so `get_cost_breakdown` propagates an
AttributeError instead of returning a report. -/
theorem C6_counterexample :
    get_cost_breakdown
        ⟨"b", [⟨none, some (.num 42), some (.num 10)⟩], [],
         none, none, 0, 0, 0, 0⟩ [] [] =
      .error "AttributeError" := by
  simp [get_cost_breakdown, breakdownMaterials, breakdownLabor,
    breakdownAreas, breakdownAreaStep, getOr, lowerVal, List.foldlM,
    List.foldl, Except.bind, bind, pure, Except.pure]

/-- C6 amended: `build_breakdown` never raises when every area record is
well-typed in the sense that a present category is a string and a present
area value is a number; absent room/category/area fields are replaced by
defaults and never cause a failure. (A present non-string category, or a
present non-numeric area value, does raise, contrary to the original
claim.) -/
theorem C6_breakdown_welltyped_total (e : Estimate) (ms : List MaterialItem)
    (ls : List LaborItem)
    (hwt : ∀ a ∈ e.areas,
      (a.category = none ∨ ∃ s, a.category = some (.str s)) ∧
      (a.area_ft2 = none ∨ ∃ q, a.area_ft2 = some (.num q))) :
    ∀ msg, get_cost_breakdown e ms ls ≠ .error msg := by
  have hareas : ∀ (areas : List AreaRecord),
      (∀ a ∈ areas,
        (a.category = none ∨ ∃ s, a.category = some (.str s)) ∧
        (a.area_ft2 = none ∨ ∃ q, a.area_ft2 = some (.num q))) →
      ∀ (acc : List (Value × AreaEntry) × ℚ),
      ∃ out, areas.foldlM breakdownAreaStep acc = .ok out := by
    intro areas
    induction areas with
    | nil => exact fun _ acc => ⟨acc, rfl⟩
    | cons a rest ih =>
      intro hw acc
      obtain ⟨hcat, hft⟩ := hw a (List.mem_cons_self a rest)
      cases hacc : breakdownAreaStep acc a with
      | error b =>
        exfalso
        rcases hcat with hc | ⟨s, hc⟩ <;> rcases hft with hf | ⟨q, hf⟩ <;>
          simp [breakdownAreaStep, hc, hf, getOr, lowerVal, mulVal,
            Bind.bind, Except.bind, pure, Except.pure] at hacc
      | ok acc' =>
        obtain ⟨out, hout⟩ :=
          ih (fun x hx => hw x (List.mem_cons_of_mem a hx)) acc'
        refine ⟨out, ?_⟩
        rw [List.foldlM_cons, hacc]
        simpa [Bind.bind, Except.bind] using hout
  intro msg hmsg
  obtain ⟨out, hout⟩ := hareas e.areas hwt ([], 0)
  unfold get_cost_breakdown breakdownAreas at hmsg
  rw [hout] at hmsg
  simp [Bind.bind, Except.bind, pure, Except.pure] at hmsg

/-- C6 amended witness: an estimate with one fully absent-field record and
one well-typed Exterior record produces a report and no error, by
`C6_breakdown_welltyped_total`. -/
theorem C6_breakdown_welltyped_total_witness :
    get_cost_breakdown
        ⟨"c", [⟨none, none, none⟩,
               ⟨some (.str "R"), some (.str "Exterior"), some (.num 5)⟩],
         [], none, none, 0, 0, 0, 0⟩ [] [] ≠
      .error "AttributeError" :=
  C6_breakdown_welltyped_total _ [] []
    (by
      intro a ha
      simp only [List.mem_cons, List.not_mem_nil, or_false] at ha
      rcases ha with rfl | rfl
      · exact ⟨Or.inl rfl, Or.inl rfl⟩
      · exact ⟨Or.inr ⟨"Exterior", rfl⟩, Or.inr ⟨5, rfl⟩⟩)
    "AttributeError"

/-- C7: any failure inside `recompute_totals` is surfaced as a single
computation-failed error whose message carries the original cause, and on
success the four computed fields are all updated together from the same
run while every other estimate attribute is left unchanged; on failure no
estimate is produced at all, so the four fields update all together or
not at all. -/
theorem C7_error_wrapping_atomicity (e : Estimate) (ms : List MaterialItem)
    (ls : List LaborItem) :
    (∀ cause, computeRaw e ms ls = .error cause →
      calculate_estimate_totals e ms ls =
        .error ("Failed to calculate estimate totals: " ++ cause)) ∧
    (∀ e' r, calculate_estimate_totals e ms ls = .ok e' →
      computeRaw e ms ls = .ok r →
      e'.name = e.name ∧ e'.areas = e.areas ∧
      e'.active_bundles = e.active_bundles ∧
      e'.profit_percentage = e.profit_percentage ∧
      e'.contingency_percentage = e.contingency_percentage ∧
      e'.subtotal = round2 r.subtotal ∧
      e'.profit_amount = round2 r.profit_amount ∧
      e'.contingency_amount = round2 r.contingency_amount ∧
      e'.grand_total = round2 r.grand_total) := by
  constructor
  · intro cause hc
    unfold calculate_estimate_totals
    rw [hc]
  · intro e' r hok hr
    obtain ⟨r', hr', he⟩ := calculate_ok_spec e ms ls e' hok
    rw [hr] at hr'
    injection hr' with hrr
    subst hrr
    subst he
    exact ⟨rfl, rfl, rfl, rfl, rfl, rfl, rfl, rfl, rfl⟩

/-- C7 witness: on an estimate whose single area record has a numeric
category, the body fails with an AttributeError and
`calculate_estimate_totals` surfaces it wrapped in the
computation-failed message, by `C7_error_wrapping_atomicity`. -/
theorem C7_error_wrapping_atomicity_witness :
    calculate_estimate_totals
        ⟨"b", [⟨none, some (.num 42), some (.num 10)⟩], [],
         none, none, 0, 0, 0, 0⟩ [] [] =
      .error ("Failed to calculate estimate totals: " ++ "AttributeError") :=
  (C7_error_wrapping_atomicity _ [] []).1 "AttributeError"
    (by
      norm_num [computeRaw, materialTotal, laborTotal, sumAreaFt2,
        areaCostTotal, areaCostStep, lowerVal, mulVal, psfRate, addVal,
        getOr, List.foldlM, List.foldl, Except.bind, bind, pure,
        Except.pure])

theorem round2_den_one (q : ℚ) : (round2 q * 100).den = 1 := by
  unfold round2
  rw [div_mul_cancel₀]
  · exact Rat.den_intCast _
  · norm_num

/-- C8: all four computed fields written by `recompute_totals` are exact
two-decimal values for every input (the stored value times 100 is an
integer), and each equals `round(·, 2)` of the corresponding raw value of
the same run, even when the intermediate sums have more precision. -/
theorem C8_two_decimal_rounding (e : Estimate) (ms : List MaterialItem)
    (ls : List LaborItem) (e' : Estimate)
    (h : calculate_estimate_totals e ms ls = .ok e') :
    (e'.subtotal * 100).den = 1 ∧
    (e'.profit_amount * 100).den = 1 ∧
    (e'.contingency_amount * 100).den = 1 ∧
    (e'.grand_total * 100).den = 1 ∧
    (∀ r, computeRaw e ms ls = .ok r →
      e'.subtotal = round2 r.subtotal ∧
      e'.profit_amount = round2 r.profit_amount ∧
      e'.contingency_amount = round2 r.contingency_amount ∧
      e'.grand_total = round2 r.grand_total) := by
  obtain ⟨r', hr', he⟩ := calculate_ok_spec e ms ls e' h
  subst he
  refine ⟨round2_den_one _, round2_den_one _, round2_den_one _,
    round2_den_one _, ?_⟩
  intro r hr
  rw [hr'] at hr
  injection hr with hrr
  subst hrr
  exact ⟨rfl, rfl, rfl, rfl⟩

/-- C8 witness: a material of cost 10.555 gives raw totals with more than
two decimals (subtotal 10.555, profit 1.58325, contingency 1.213825,
grand total 13.352075); the stored fields are the two-decimal roundings
10.56 / 1.58 / 1.21 / 13.35 and each times 100 has denominator 1, by
`C8_two_decimal_rounding`. -/
theorem C8_two_decimal_rounding_witness :
    calculate_estimate_totals ⟨"p", [], [], none, none, 0, 0, 0, 0⟩
        [⟨"m", none, none, none, some (2111/200), none, none⟩] [] =
      .ok ⟨"p", [], [], none, none, 264/25, 79/50, 121/100, 267/20⟩ ∧
    ((264/25 : ℚ) * 100).den = 1 ∧ ((79/50 : ℚ) * 100).den = 1 ∧
    ((121/100 : ℚ) * 100).den = 1 ∧ ((267/20 : ℚ) * 100).den = 1 := by
  have h : calculate_estimate_totals ⟨"p", [], [], none, none, 0, 0, 0, 0⟩
      [⟨"m", none, none, none, some (2111/200), none, none⟩] [] =
      .ok ⟨"p", [], [], none, none, 264/25, 79/50, 121/100, 267/20⟩ := by
    norm_num [calculate_estimate_totals, computeRaw, materialTotal,
      materialStep, materialIncluded, coalesce, orFloat, laborTotal,
      laborStep, sumAreaFt2, areaCostTotal, List.foldlM, List.foldl,
      pure, Except.pure, Except.bind, bind, round2, roundHalfEven]
  have hc := C8_two_decimal_rounding _ _ _ _ h
  exact ⟨h, hc.1, hc.2.1, hc.2.2.1, hc.2.2.2.1⟩

/-- C9: `recompute_totals` is idempotent and deterministic: running it
again on the estimate it produced, with unchanged line items, area
records and settings, stores exactly the same four computed fields. -/
theorem C9_idempotent (e : Estimate) (ms : List MaterialItem)
    (ls : List LaborItem) (e' : Estimate)
    (h : calculate_estimate_totals e ms ls = .ok e') :
    calculate_estimate_totals e' ms ls = .ok e' := by
  obtain ⟨r, hr, he⟩ := calculate_ok_spec e ms ls e' h
  subst he
  unfold calculate_estimate_totals
  have hsame : computeRaw { e with
      subtotal := round2 r.subtotal
      profit_amount := round2 r.profit_amount
      contingency_amount := round2 r.contingency_amount
      grand_total := round2 r.grand_total } ms ls = computeRaw e ms ls := rfl
  rw [hsame, hr]

/-- C9 witness: recomputation of an already-recomputed estimate (subtotal
1000, profit 150, contingency 115, grand total 1265) returns it
unchanged, by `C9_idempotent`. -/
theorem C9_idempotent_witness :
    calculate_estimate_totals
        ⟨"t", [], ["Kitchen"], some 15, some 10, 1000, 150, 115, 1265⟩
        [⟨"m", none, none, none, some 1000, none, none⟩] [] =
      .ok ⟨"t", [], ["Kitchen"], some 15, some 10, 1000, 150, 115, 1265⟩ :=
  C9_idempotent ⟨"t", [], ["Kitchen"], some 15, some 10, 0, 0, 0, 0⟩
    [⟨"m", none, none, none, some 1000, none, none⟩] []
    ⟨"t", [], ["Kitchen"], some 15, some 10, 1000, 150, 115, 1265⟩
    (by
      norm_num [calculate_estimate_totals, computeRaw, materialTotal,
        materialStep, materialIncluded, coalesce, orFloat, laborTotal,
        laborStep, sumAreaFt2, areaCostTotal, List.foldlM, List.foldl,
        pure, Except.pure, Except.bind, bind, round2, roundHalfEven])

/-- C10: in the breakdown report the area entries are keyed by room name
(an absent room is keyed under the literal `Unknown`); when two records
share the same room key only the last record's entry remains in the
`area_costs` mapping, while `totals.area_costs` still sums the costs of
all records, so the per-room entries need not sum to the area-costs
total. -/
theorem C10_area_room_keying :
    (∀ (e : Estimate) (bd : Breakdown) (s : String) (q : ℚ),
      e.areas = [⟨none, some (.str s), some (.num q)⟩] →
      get_cost_breakdown e [] [] = .ok bd →
      bd.area_costs = [(Value.str "Unknown",
        ⟨.num q, psfRate (lowerString s), q * psfRate (lowerString s), .str s⟩)] ∧
      bd.totals.area_costs = q * psfRate (lowerString s)) ∧
    (∀ (e : Estimate) (bd : Breakdown) (rm : Value) (s₁ s₂ : String) (q₁ q₂ : ℚ),
      e.areas = [⟨some rm, some (.str s₁), some (.num q₁)⟩,
                 ⟨some rm, some (.str s₂), some (.num q₂)⟩] →
      get_cost_breakdown e [] [] = .ok bd →
      bd.area_costs = [(rm, ⟨.num q₂, psfRate (lowerString s₂),
          q₂ * psfRate (lowerString s₂), .str s₂⟩)] ∧
      bd.totals.area_costs =
        q₁ * psfRate (lowerString s₁) + q₂ * psfRate (lowerString s₂)) := by
  constructor
  · intro e bd s q he h
    have hb : breakdownAreas e.areas =
        .ok ([(Value.str "Unknown",
          ⟨.num q, psfRate (lowerString s), q * psfRate (lowerString s), .str s⟩)],
          q * psfRate (lowerString s)) := by
      rw [he]
      simp [breakdownAreas, List.foldlM, breakdownAreaStep, getOr, lowerVal,
        mulVal, alistSet, Bind.bind, Except.bind, pure, Except.pure]
    obtain ⟨-, -, h3, -⟩ := get_cost_breakdown_ok_spec e [] [] bd h
    rw [hb] at h3
    simp only [Except.ok.injEq, Prod.mk.injEq] at h3
    exact ⟨h3.1.symm, h3.2.symm⟩
  · intro e bd rm s₁ s₂ q₁ q₂ he h
    have hb : breakdownAreas e.areas =
        .ok ([(rm, ⟨.num q₂, psfRate (lowerString s₂),
            q₂ * psfRate (lowerString s₂), .str s₂⟩)],
          q₁ * psfRate (lowerString s₁) + q₂ * psfRate (lowerString s₂)) := by
      rw [he]
      simp [breakdownAreas, List.foldlM, breakdownAreaStep, getOr, lowerVal,
        mulVal, alistSet, Bind.bind, Except.bind, pure, Except.pure]
    obtain ⟨-, -, h3, -⟩ := get_cost_breakdown_ok_spec e [] [] bd h
    rw [hb] at h3
    simp only [Except.ok.injEq, Prod.mk.injEq] at h3
    exact ⟨h3.1.symm, h3.2.symm⟩

/-- C10 witness: two records for the room `Room` (Interior, 5 and 10 sq
ft): the mapping holds only the last entry (cost 200) while the area
total is 300, so the per-room entries do not sum to the total, by
`C10_area_room_keying`. -/
theorem C10_area_room_keying_witness :
    get_cost_breakdown
        ⟨"d", [⟨some (.str "Room"), some (.str "Interior"), some (.num 5)⟩,
               ⟨some (.str "Room"), some (.str "Interior"), some (.num 10)⟩],
         [], none, none, 0, 0, 0, 0⟩ [] [] =
      .ok ⟨[], [], [(Value.str "Room", ⟨.num 10, 20, 200, .str "Interior"⟩)],
           ⟨0, 0, 300, 0, 0, 0, 0⟩⟩ ∧
    (⟨[], [], [(Value.str "Room", ⟨.num 10, 20, 200, .str "Interior"⟩)],
      ⟨0, 0, 300, 0, 0, 0, 0⟩⟩ : Breakdown).area_costs =
      [(Value.str "Room",
        ⟨.num 10, psfRate (lowerString "Interior"),
         10 * psfRate (lowerString "Interior"), .str "Interior"⟩)] ∧
    (⟨[], [], [(Value.str "Room", ⟨.num 10, 20, 200, .str "Interior"⟩)],
      ⟨0, 0, 300, 0, 0, 0, 0⟩⟩ : Breakdown).totals.area_costs =
      5 * psfRate (lowerString "Interior") +
        10 * psfRate (lowerString "Interior") ∧
    (200 : ℚ) ≠ 300 := by
  have h : get_cost_breakdown
      ⟨"d", [⟨some (.str "Room"), some (.str "Interior"), some (.num 5)⟩,
             ⟨some (.str "Room"), some (.str "Interior"), some (.num 10)⟩],
       [], none, none, 0, 0, 0, 0⟩ [] [] =
      .ok ⟨[], [], [(Value.str "Room", ⟨.num 10, 20, 200, .str "Interior"⟩)],
           ⟨0, 0, 300, 0, 0, 0, 0⟩⟩ := by
    simp only [get_cost_breakdown, breakdownMaterials, breakdownLabor,
      breakdownAreas, breakdownAreaStep, breakdownMatStep, breakdownLabStep,
      getOr, lowerVal, mulVal, psfRate, alistSet, List.foldlM, List.foldl,
      Bind.bind, Except.bind, pure, Except.pure, String.reduceEq,
      show lowerString "Interior" = "interior" from by decide,
      if_true, if_false, ite_true, ite_false, Except.ok.injEq]
    norm_num
  have happ := C10_area_room_keying.2 _ _ (Value.str "Room")
    "Interior" "Interior" 5 10 rfl h
  exact ⟨h, happ.1, happ.2, by norm_num⟩

end QuickBuild
